import Mathlib

/-!
Verification of the data-preparation pipeline of the credit-card default
prediction repository.

The repository's core is `DataLoader.load_data` (src/main/data_loader.py),
which reads a tabular file, lower-cases column names, splits features from
the target, one-hot encodes categoricals, partitions train/test, applies
SMOTE when the minority class is under 30%, and standard-scales the
features.  `main` (src/main/main.py) drives the pipeline and `SHAPExplainer`
(src/main/explainer.py) renders attribution charts.

Third-party library calls (pandas parsing, sklearn `train_test_split` and
`StandardScaler`, imblearn `SMOTE`, pandas `get_dummies`) are modelled as
function parameters of the embedded repository code: the theorems quantify
over their behaviour, so they state exactly what the repository's own code
does around those calls.
-/

/-- A cell value is modelled as a rational (the datasets consumed by the
pipeline are numeric matrices once loaded). -/
abbrev Mat : Type := List (List ℚ)

/-- An in-memory table: ordered column names plus rows of cells. -/
structure Table where
  cols : List String
  rows : List (List ℚ)
deriving DecidableEq

/-- Lower-casing of a string, character by character
(Python `str.lower`; the datasets' names are ASCII). -/
def lowerStr (s : String) : String :=
  ⟨s.data.map Char.toLower⟩

/-- Boolean suffix test on strings, via their character lists
(Python `str.endswith`). -/
def strEndsWith (s suffix : String) : Bool :=
  List.isSuffixOf suffix.data s.data

/-- The branch `load_data` takes on a path
(`if file_path.lower().endswith('.csv'): pd.read_csv ... else: pd.read_excel`,
data_loader.py lines 21-27).  The `unsupportedFormat` constructor is the
outcome the spec's error taxonomy describes; the code never produces it. -/
inductive ReadBranch
  | csv
  | excel
  | unsupportedFormat
deriving DecidableEq

/-- Which parser `load_data` dispatches to: `.csv` paths (case-insensitive)
go to the CSV reader, every other path goes to the Excel reader with its
two-engine fallback.  There is no extension validation in the source. -/
def readBranch (path : String) : ReadBranch :=
  if strEndsWith (lowerStr path) ".csv" then .csv else .excel

/-- Extensions the spec calls recognized (delimited text or spreadsheet:
.csv, .xls, .xlsx, matching the remediation text in main.py). -/
def recognizedExt (path : String) : Bool :=
  strEndsWith (lowerStr path) ".csv" || strEndsWith (lowerStr path) ".xls" ||
    strEndsWith (lowerStr path) ".xlsx"

/-- Column-name normalization performed by `load_data`
(`data.columns = data.columns.str.lower()`, data_loader.py line 34):
lower-casing only; rows are untouched. -/
def normalizeColumns (t : Table) : Table :=
  { cols := t.cols.map lowerStr, rows := t.rows }

/-- Removal of surrounding spaces, used only to state what the spec claims
the normalization does (the source never strips). -/
def stripSpaces (s : String) : String :=
  ⟨((s.data.dropWhile (fun c => c = ' ')).reverse.dropWhile
      (fun c => c = ' ')).reverse⟩

/-- A table whose single column name carries surrounding whitespace. -/
def tableSpacedCol : Table :=
  { cols := [" Age "], rows := [[0]] }

/-- C2: the claim says an unrecognized extension fails with
`UnsupportedFormat` and is never parsed.  Counterexample: "data.txt" has an
unrecognized extension, yet `load_data` dispatches it to the Excel parser
and no `UnsupportedFormat` outcome occurs. -/
theorem readBranch_txt_parsed_as_excel :
    recognizedExt "data.txt" = false ∧
    readBranch "data.txt" = ReadBranch.excel ∧
    readBranch "data.txt" ≠ ReadBranch.unsupportedFormat := by
  decide

/-- C2 amended: the reader dispatches any path ending in ".csv"
(case-insensitive) to the CSV parser and every other path, recognized or
not, to the spreadsheet parser; no `UnsupportedFormat` check exists. -/
theorem readBranch_no_format_check (path : String)
    (h : strEndsWith (lowerStr path) ".csv" = false) :
    readBranch path = ReadBranch.excel := by
  unfold readBranch
  simp [h]

/-- C2 amended, witness at the concrete path "data.txt". -/
theorem readBranch_no_format_check_witness :
    readBranch "data.txt" = ReadBranch.excel :=
  readBranch_no_format_check "data.txt" (by decide)

/-- C3: the claim says every returned column name is the original
lower-cased with surrounding whitespace stripped.  Counterexample: the
column " Age " is returned as " age ", while its stripped lower-cased form
is "age"; the code never strips. -/
theorem normalizeColumns_keeps_whitespace :
    (normalizeColumns tableSpacedCol).cols = [" age "] ∧
    stripSpaces (lowerStr " Age ") = "age" ∧
    (" age " : String) ≠ "age" := by
  decide

/-- C3 amended: for every table, the reader's normalization keeps all rows
and maps each column name to its lower-cased form (no whitespace
stripping). -/
theorem normalizeColumns_rows_and_lower (t : Table) :
    (normalizeColumns t).rows = t.rows ∧
    (normalizeColumns t).cols = t.cols.map lowerStr := by
  exact ⟨rfl, rfl⟩

/-- Error taxonomy.  Repository code raises only `targetColumnMissing`
(the `ValueError` in data_loader.py lines 38-40) and `valueError` (Python
runtime errors such as tuple unpacking).  The remaining constructors are
the spec's taxonomy; library stand-ins may produce them, repository code
never does. -/
inductive Err
  | targetColumnMissing (target : String) (available : List String)
  | valueError (msg : String)
  | unsupportedFormat
  | invalidSplitSize
  | insufficientMinoritySamples
  | columnMismatch
deriving DecidableEq

/-- Number of occurrences of label `c` in the target vector
(one entry of `y.value_counts()`). -/
def countClass (y : List ℚ) (c : ℚ) : ℕ :=
  (y.filter (fun v => v = c)).length

/-- The distinct labels occurring in `y` (the index of `y.value_counts()`). -/
def classesOf (y : List ℚ) : List ℚ :=
  y.dedup

/-- Normalized frequency of label `c`
(`y.value_counts(normalize=True)`). -/
def proportionOf (y : List ℚ) (c : ℚ) : ℚ :=
  (countClass y c : ℚ) / (y.length : ℚ)

/-- Rounding to the nearest integer, ties to the even integer — the
rounding numpy/pandas `round` uses. -/
def roundHalfEven (q : ℚ) : ℤ :=
  if q - ⌊q⌋ = 1/2 then (if 2 ∣ ⌊q⌋ then ⌊q⌋ else ⌊q⌋ + 1) else round q

/-- Rounding to one decimal place (`Series.round(1)`). -/
def roundTo1 (q : ℚ) : ℚ :=
  (roundHalfEven (q * 10) : ℚ) / 10

/-- The series `y.value_counts(normalize=True).mul(100).round(1)` computed
in `_handle_class_imbalance` (data_loader.py line 106). -/
def classDistribution (y : List ℚ) : List ℚ :=
  (classesOf y).map (fun c => roundTo1 (proportionOf y c * 100))

/-- The minimum of the rounded percentage series
(`class_distribution.min()`).  The initial value 100 only pads the fold:
every percentage is at most 100, and the series is nonempty whenever `y`
is. -/
def minDistribution (y : List ℚ) : ℚ :=
  (classDistribution y).foldr min 100

/-- The balancer's branch condition
(`if class_distribution.min() / 100 < 0.3`, data_loader.py line 111). -/
def needsSmote (y : List ℚ) : Bool :=
  decide (minDistribution y / 100 < 3/10)

/-- `DataLoader._handle_class_imbalance` (data_loader.py lines 104-119):
if the rounded minimum class percentage is below 30%, call the SMOTE
library (`smote.fit_resample`, passed here as the parameter `smote`);
otherwise return the inputs unchanged.  The function performs no other
check: in particular it never validates minority-sample counts. -/
def handleClassImbalance (smote : Mat → List ℚ → Except Err (Mat × List ℚ))
    (X : Mat) (y : List ℚ) : Except Err (Mat × List ℚ) :=
  if needsSmote y then smote X y else Except.ok (X, y)

/-- A benign stand-in for the SMOTE library call, used to witness what the
repository code does around it. -/
def smoteId : Mat → List ℚ → Except Err (Mat × List ℚ) :=
  fun X y => Except.ok (X, y)

/-- A small feature matrix used in concrete scenarios. -/
def matEx : Mat := [[1, 2], [3, 4]]

/-- A balanced binary target (each class at 50%). -/
def yBalanced : List ℚ := [0, 1, 0, 1]

/-- An imbalanced target: one positive among eight (12.5%), fewer minority
samples than SMOTE's default 5-neighbour requirement. -/
def yImbalanced : List ℚ := [0, 0, 0, 0, 0, 0, 0, 1]

/-- A target whose true minority proportion is 62/207 ≈ 0.299517, inside
[0.2995, 0.30): below the threshold, but rounding to one decimal yields
exactly 30.0%. -/
def yBoundary : List ℚ := List.replicate 145 0 ++ List.replicate 62 1

/-- Lower bound for half-even rounding: an integer lower bound of the
argument bounds the rounded value. -/
theorem roundHalfEven_ge (n : ℤ) (x : ℚ) (h : (n : ℚ) ≤ x) :
    n ≤ roundHalfEven x := by
  unfold roundHalfEven
  have hf : n ≤ ⌊x⌋ := Int.le_floor.mpr h
  split
  · split
    · exact hf
    · omega
  · rw [round_eq]
    apply Int.le_floor.mpr
    linarith

/-- Lower bound for one-decimal rounding. -/
theorem roundTo1_ge (n : ℤ) (q : ℚ) (h : (n : ℚ) ≤ q) :
    (n : ℚ) ≤ roundTo1 q := by
  unfold roundTo1
  have h1 : (10 * n : ℤ) ≤ roundHalfEven (q * 10) := by
    apply roundHalfEven_ge
    push_cast
    linarith
  have h2 : ((10 * n : ℤ) : ℚ) ≤ (roundHalfEven (q * 10) : ℚ) := by
    exact_mod_cast h1
  push_cast at h2
  linarith

/-- A lower bound of every list element and of the initial value bounds a
`min`-fold. -/
theorem le_foldr_min (b init : ℚ) (l : List ℚ)
    (hb : ∀ a ∈ l, b ≤ a) (hi : b ≤ init) : b ≤ l.foldr min init := by
  induction l with
  | nil => simpa
  | cons a l ih =>
    simp only [List.foldr_cons]
    exact le_min (hb a (by simp)) (ih fun x hx => hb x (by simp [hx]))

/-- A `min`-fold is bounded by each list element. -/
theorem foldr_min_le (a init : ℚ) (l : List ℚ) (ha : a ∈ l) :
    l.foldr min init ≤ a := by
  induction l with
  | nil => cases ha
  | cons x l ih =>
    simp only [List.foldr_cons]
    rcases List.mem_cons.mp ha with rfl | h
    · exact min_le_left _ _
    · exact le_trans (min_le_right _ _) (ih h)

/-- C4: if every class (in particular the minority class) holds at least
30% of the training target, the balancer returns its inputs unchanged, for
every behaviour of the SMOTE library. -/
theorem smote_identity_when_minority_ge_30
    (smote : Mat → List ℚ → Except Err (Mat × List ℚ)) (X : Mat)
    (y : List ℚ) (h : ∀ c ∈ classesOf y, 3/10 ≤ proportionOf y c) :
    handleClassImbalance smote X y = Except.ok (X, y) := by
  have h30 : (30 : ℚ) ≤ minDistribution y := by
    apply le_foldr_min
    · intro a ha
      obtain ⟨c, hc, rfl⟩ := List.mem_map.mp ha
      have hp := h c hc
      have h1 : ((30 : ℤ) : ℚ) ≤ proportionOf y c * 100 := by push_cast; linarith
      have h2 := roundTo1_ge 30 _ h1
      push_cast at h2
      linarith
    · norm_num
  have hb : needsSmote y = false := by
    unfold needsSmote
    simp only [decide_eq_false_iff_not, not_lt]
    linarith
  unfold handleClassImbalance
  rw [hb]
  simp

/-- C4 witness: on a 50/50 target the balancer is the identity. -/
theorem smote_identity_witness :
    handleClassImbalance smoteId matEx yBalanced = Except.ok (matEx, yBalanced) :=
  smote_identity_when_minority_ge_30 smoteId matEx yBalanced
    (by with_unfolding_all decide)

/-- C5 amended: whenever the rounded minority percentage is below 30%, the
balancer forwards its inputs to the SMOTE library call unconditionally —
no minority-sample-count validation exists in the repository code. -/
theorem balance_forwards_to_smote_unchecked
    (smote : Mat → List ℚ → Except Err (Mat × List ℚ)) (X : Mat)
    (y : List ℚ) (h : needsSmote y = true) :
    handleClassImbalance smote X y = smote X y := by
  unfold handleClassImbalance
  rw [h]
  rfl

/-- C5 amended witness: with one minority sample among eight, the balancer
is exactly the library call. -/
theorem balance_forwards_to_smote_unchecked_witness :
    handleClassImbalance smoteId matEx yImbalanced =
      smoteId matEx yImbalanced :=
  balance_forwards_to_smote_unchecked smoteId matEx yImbalanced
    (by with_unfolding_all decide)

/-- C5 counterexample: the minority class of `yImbalanced` holds 12.5% with
a single sample — fewer than SMOTE's neighbour requirement — yet the
balancer performs no `InsufficientMinoritySamples` validation: with a SMOTE
stand-in that returns its inputs it succeeds instead of failing. -/
theorem balance_no_insufficient_check :
    needsSmote yImbalanced = true ∧
    countClass yImbalanced 1 = 1 ∧
    handleClassImbalance smoteId matEx yImbalanced =
      Except.ok (matEx, yImbalanced) ∧
    handleClassImbalance smoteId matEx yImbalanced ≠
      Except.error Err.insufficientMinoritySamples := by
  have hb : needsSmote yImbalanced = true := by with_unfolding_all decide
  refine ⟨hb, by decide, ?_, ?_⟩
  · unfold handleClassImbalance
    rw [hb]
    rfl
  · unfold handleClassImbalance
    rw [hb]
    simp [smoteId]

/-- Half-even rounding sends the interval [299.5, 300) to exactly 300
(299.5 itself rounds up because 299 is odd). -/
theorem roundHalfEven_eq_300 (x : ℚ) (h1 : (599 : ℚ)/2 ≤ x)
    (h2 : x < 300) : roundHalfEven x = 300 := by
  have hfl : ⌊x⌋ = 299 := by
    rw [Int.floor_eq_iff]
    constructor
    · push_cast
      linarith
    · push_cast
      linarith
  unfold roundHalfEven
  rw [hfl]
  split
  · rw [if_neg (by decide)]
    norm_num
  · rename_i hc
    have hne : x ≠ (599 : ℚ)/2 := by
      intro he
      apply hc
      rw [he]
      push_cast
      norm_num
    have hx : (599 : ℚ)/2 < x := lt_of_le_of_ne h1 (Ne.symm hne)
    rw [round_eq, Int.floor_eq_iff]
    constructor
    · push_cast
      linarith
    · push_cast
      linarith

/-- Half-even rounding sends anything at least 299.5 to at least 300. -/
theorem roundHalfEven_ge_300 (x : ℚ) (h : (599 : ℚ)/2 ≤ x) :
    (300 : ℤ) ≤ roundHalfEven x := by
  rcases lt_or_le x 300 with hlt | hge
  · rw [roundHalfEven_eq_300 x h hlt]
  · exact roundHalfEven_ge 300 x (by push_cast; linarith)

/-- C10: when every class proportion is at least 0.2995 and some class
(the minority) is strictly below 0.30, the rounded distribution minimum is
exactly 30.0 and the balancer skips resampling, even though the true
minority proportion is below the 0.30 threshold. -/
theorem smote_skipped_on_rounded_boundary
    (smote : Mat → List ℚ → Except Err (Mat × List ℚ)) (X : Mat)
    (y : List ℚ) (c : ℚ) (hmem : c ∈ classesOf y)
    (hall : ∀ c' ∈ classesOf y, (2995 : ℚ)/10000 ≤ proportionOf y c')
    (hlow : proportionOf y c < 3/10) :
    minDistribution y = 30 ∧
      handleClassImbalance smote X y = Except.ok (X, y) := by
  have key : ∀ c' ∈ classesOf y,
      (30 : ℚ) ≤ roundTo1 (proportionOf y c' * 100) := by
    intro c' hc'
    have h1 := hall c' hc'
    unfold roundTo1
    have h2 : (300 : ℤ) ≤ roundHalfEven (proportionOf y c' * 100 * 10) := by
      apply roundHalfEven_ge_300
      linarith
    have h3 : ((300 : ℤ) : ℚ) ≤
        (roundHalfEven (proportionOf y c' * 100 * 10) : ℚ) := by
      exact_mod_cast h2
    push_cast at h3
    linarith
  have hcexact : roundTo1 (proportionOf y c * 100) = 30 := by
    unfold roundTo1
    rw [roundHalfEven_eq_300 _ (by have := hall c hmem; linarith)
      (by linarith)]
    norm_num
  have hmin : minDistribution y = 30 := by
    unfold minDistribution
    apply le_antisymm
    · calc (classDistribution y).foldr min 100
          ≤ roundTo1 (proportionOf y c * 100) :=
            foldr_min_le _ _ _ (List.mem_map_of_mem _ hmem)
        _ = 30 := hcexact
    · apply le_foldr_min
      · intro a ha
        obtain ⟨c', hc', rfl⟩ := List.mem_map.mp ha
        exact key c' hc'
      · norm_num
  refine ⟨hmin, ?_⟩
  have hb : needsSmote y = false := by
    unfold needsSmote
    rw [hmin]
    norm_num
  unfold handleClassImbalance
  rw [hb]
  simp

set_option maxRecDepth 8000 in
/-- C10 witness: 62 positives among 207 samples give a true minority
proportion of about 0.299517, inside [0.2995, 0.30); the rounded minimum
is 30.0 and the balancer is the identity. -/
theorem smote_skipped_on_rounded_boundary_witness :
    minDistribution yBoundary = 30 ∧
      handleClassImbalance smoteId matEx yBoundary =
        Except.ok (matEx, yBoundary) :=
  smote_skipped_on_rounded_boundary smoteId matEx yBoundary 1
    (by with_unfolding_all decide)
    (by with_unfolding_all decide)
    (by with_unfolding_all decide)

/-- Dropping a column by label (`df.drop(columns=[target_column])`):
removes the name and, in every row, the cells at the removed positions. -/
def dropColumn (t : Table) (c : String) : Table :=
  { cols := t.cols.filter (fun n => n ≠ c),
    rows := t.rows.map (fun r =>
      ((t.cols.zip r).filter (fun p => p.1 ≠ c)).map Prod.snd) }

/-- The cells of the named column (`df[target_column]`). -/
def columnOf (t : Table) (c : String) : List ℚ :=
  t.rows.map (fun r => r.getD (t.cols.indexOf c) 0)

/-- `DataLoader._preprocess_data` (data_loader.py lines 64-102).  The
target's category-code conversion applies only to string-typed targets and
is a no-op on the numeric tables modelled here.  `get_dummies` is a pandas
call, passed as the parameter `getDummies`; the code invokes it only when
some configured categorical column is present.  `feature_names` is
computed before the dummy expansion: all column names except the target. -/
def preprocessData (getDummies : Table → List String → Table)
    (categoricalColumns : List String) (t : Table) (target : String) :
    Mat × List ℚ × List String :=
  let presentCats := categoricalColumns.filter (fun c => c ∈ t.cols)
  let featureNames := t.cols.filter (fun c => c ≠ target)
  let Xtab := if presentCats.isEmpty then dropColumn t target
              else getDummies (dropColumn t target) presentCats
  (Xtab.rows, columnOf t target, featureNames)

/-- `DataLoader.load_data` (data_loader.py lines 16-62) on an already
parsed table: lower-case the column names, check the target column,
preprocess, call the library split (`train_test_split`), balance, fit the
scaler on the balanced training matrix and transform both matrices with
the fitted state.  The sklearn scaler is the pair of parameters
`fit`/`transform`; its fitted state has the abstract type `σ`.  The only
error raised by this repository code is the missing-target `ValueError`. -/
def load_data {σ : Type}
    (split : Mat → List ℚ → ℚ → ℕ → Except Err (Mat × Mat × List ℚ × List ℚ))
    (smote : Mat → List ℚ → Except Err (Mat × List ℚ))
    (getDummies : Table → List String → Table)
    (fit : Mat → σ) (transform : σ → Mat → Mat)
    (categoricalColumns : List String) (t : Table) (targetColumn : String)
    (testSize : ℚ) (randomState : ℕ) :
    Except Err (Mat × Mat × List ℚ × List ℚ × List String) := do
  let tn := normalizeColumns t
  let target := lowerStr targetColumn
  if target ∈ tn.cols then
    let (X, y, featureNames) :=
      preprocessData getDummies categoricalColumns tn target
    let (XTrain, XTest, yTrain, yTest) ← split X y testSize randomState
    let (XRes, yRes) ← handleClassImbalance smote XTrain yTrain
    let st := fit XRes
    pure (transform st XRes, transform st XTest, yRes, yTest, featureNames)
  else
    Except.error (Err.targetColumnMissing target tn.cols)

/-- Unfolding lemma for a successful `load_data` run: given the library
outcomes, the returned five-tuple is determined. -/
theorem load_data_ok_eq {σ : Type}
    (split : Mat → List ℚ → ℚ → ℕ → Except Err (Mat × Mat × List ℚ × List ℚ))
    (smote : Mat → List ℚ → Except Err (Mat × List ℚ))
    (getDummies : Table → List String → Table)
    (fit : Mat → σ) (transform : σ → Mat → Mat)
    (categoricalColumns : List String) (t : Table) (targetColumn : String)
    (testSize : ℚ) (randomState : ℕ)
    (X XTrain XTest XRes : Mat) (y yTrain yTest yRes : List ℚ)
    (fns : List String)
    (hmem : lowerStr targetColumn ∈ (normalizeColumns t).cols)
    (hpre : preprocessData getDummies categoricalColumns (normalizeColumns t)
      (lowerStr targetColumn) = (X, y, fns))
    (hsplit : split X y testSize randomState =
      Except.ok (XTrain, XTest, yTrain, yTest))
    (hbal : handleClassImbalance smote XTrain yTrain =
      Except.ok (XRes, yRes)) :
    load_data split smote getDummies fit transform categoricalColumns t
      targetColumn testSize randomState =
      Except.ok (transform (fit XRes) XRes, transform (fit XRes) XTest,
        yRes, yTest, fns) := by
  unfold load_data
  simp only [hmem, if_true, hpre, hsplit, bind, Except.bind, hbal, pure,
    Except.pure]

/-- A stand-in for the sklearn `train_test_split` call that always
succeeds (it reuses the inputs for both partitions). -/
def splitHalf : Mat → List ℚ → ℚ → ℕ → Except Err (Mat × Mat × List ℚ × List ℚ) :=
  fun X y _ _ => Except.ok (X, X, y, y)

/-- A stand-in for pandas `get_dummies` that returns its input table. -/
def gdId : Table → List String → Table :=
  fun t _ => t

/-- A stand-in for the scaler's `fit` with trivial state. -/
def fitNone : Mat → Unit :=
  fun _ => ()

/-- A stand-in for the scaler's `transform`. -/
def transId : Unit → Mat → Mat :=
  fun _ m => m

/-- A two-column table with a binary target column named "Default". -/
def tableEx : Table :=
  { cols := ["income", "Default"], rows := [[100, 0], [50, 1]] }

/-- A balancer error can only come out of the SMOTE library call: the
repository branch adds no error of its own. -/
theorem handleClassImbalance_error_from_smote
    (smote : Mat → List ℚ → Except Err (Mat × List ℚ)) (X : Mat)
    (y : List ℚ) (e : Err)
    (hb : handleClassImbalance smote X y = Except.error e) :
    smote X y = Except.error e := by
  unfold handleClassImbalance at hb
  split at hb
  · exact hb
  · exact absurd hb (by simp)

/-- Successful runs carry the pre-encoding feature names: the last
component of the returned tuple is the list of normalized column names
other than the target. -/
theorem load_data_ok_featureNames {σ : Type}
    (split : Mat → List ℚ → ℚ → ℕ → Except Err (Mat × Mat × List ℚ × List ℚ))
    (smote : Mat → List ℚ → Except Err (Mat × List ℚ))
    (getDummies : Table → List String → Table)
    (fit : Mat → σ) (transform : σ → Mat → Mat)
    (categoricalColumns : List String) (t : Table) (targetColumn : String)
    (testSize : ℚ) (randomState : ℕ)
    (r : Mat × Mat × List ℚ × List ℚ × List String)
    (h : load_data split smote getDummies fit transform categoricalColumns t
      targetColumn testSize randomState = Except.ok r) :
    lowerStr targetColumn ∈ (normalizeColumns t).cols ∧
    r.2.2.2.2 = (normalizeColumns t).cols.filter
      (fun c => c ≠ lowerStr targetColumn) := by
  unfold load_data at h
  by_cases hmem : lowerStr targetColumn ∈ (normalizeColumns t).cols
  · rw [if_pos hmem] at h
    refine ⟨hmem, ?_⟩
    rcases hp : preprocessData getDummies categoricalColumns
      (normalizeColumns t) (lowerStr targetColumn) with ⟨X, y, fns⟩
    simp only [hp] at h
    cases hs : split X y testSize randomState with
    | error e =>
      simp only [hs, bind, Except.bind] at h
      exact absurd h (by simp)
    | ok q =>
      obtain ⟨XTrain, XTest, yTrain, yTest⟩ := q
      simp only [hs, bind, Except.bind] at h
      cases hb : handleClassImbalance smote XTrain yTrain with
      | error e =>
        simp only [hb] at h
        exact absurd h (by simp)
      | ok p =>
        obtain ⟨XRes, yRes⟩ := p
        simp only [hb, pure, Except.pure, Except.ok.injEq] at h
        have hfns : fns = (normalizeColumns t).cols.filter
            (fun c => c ≠ lowerStr targetColumn) := by
          have h22 := congrArg (fun p => p.2.2) hp
          simpa [preprocessData] using h22.symm
        rw [← h]
        simpa using hfns
  · rw [if_neg hmem] at h
    exact absurd h (by simp)

/-- Removing the one occurrence of a label from a duplicate-free list by
filtering shortens it by exactly one. -/
theorem length_filter_ne (l : List String) (a : String) (hnd : l.Nodup)
    (ha : a ∈ l) : (l.filter (fun c => c ≠ a)).length = l.length - 1 := by
  have hfe : (fun (c : String) => decide (c ≠ a)) = (fun c => c != a) := by
    funext c
    by_cases hc : c = a
    · simp [hc]
    · simp [hc, bne_iff_ne]
  calc (l.filter (fun c => c ≠ a)).length
      = (l.erase a).length := by rw [hfe, ← hnd.erase_eq_filter a]
    _ = l.length - 1 := List.length_erase_of_mem ha

/-- C7: the scaler state is `fit XRes` where `XRes` is the post-balancing
training matrix, and both returned matrices are transformed with exactly
that state; the state is computed from training features only, never from
`XTest`. -/
theorem scaler_fit_only_on_balanced_train {σ : Type}
    (split : Mat → List ℚ → ℚ → ℕ → Except Err (Mat × Mat × List ℚ × List ℚ))
    (smote : Mat → List ℚ → Except Err (Mat × List ℚ))
    (getDummies : Table → List String → Table)
    (fit : Mat → σ) (transform : σ → Mat → Mat)
    (categoricalColumns : List String) (t : Table) (targetColumn : String)
    (testSize : ℚ) (randomState : ℕ)
    (X XTrain XTest XRes : Mat) (y yTrain yTest yRes : List ℚ)
    (fns : List String)
    (hmem : lowerStr targetColumn ∈ (normalizeColumns t).cols)
    (hpre : preprocessData getDummies categoricalColumns (normalizeColumns t)
      (lowerStr targetColumn) = (X, y, fns))
    (hsplit : split X y testSize randomState =
      Except.ok (XTrain, XTest, yTrain, yTest))
    (hbal : handleClassImbalance smote XTrain yTrain =
      Except.ok (XRes, yRes)) :
    load_data split smote getDummies fit transform categoricalColumns t
      targetColumn testSize randomState =
      Except.ok (transform (fit XRes) XRes, transform (fit XRes) XTest,
        yRes, yTest, fns) :=
  load_data_ok_eq split smote getDummies fit transform categoricalColumns t
    targetColumn testSize randomState X XTrain XTest XRes y yTrain yTest
    yRes fns hmem hpre hsplit hbal

/-- C7 witness on a concrete table and stand-in libraries. -/
theorem scaler_fit_only_on_balanced_train_witness :
    load_data splitHalf smoteId gdId fitNone transId [] tableEx "Default"
      (1/5) 42 =
      Except.ok (transId (fitNone [[100], [50]]) [[100], [50]],
        transId (fitNone [[100], [50]]) [[100], [50]], [0, 1], [0, 1],
        ["income"]) :=
  scaler_fit_only_on_balanced_train splitHalf smoteId gdId fitNone transId
    [] tableEx "Default" (1/5) 42 [[100], [50]] [[100], [50]] [[100], [50]]
    [[100], [50]] [0, 1] [0, 1] [0, 1] [0, 1] ["income"]
    (by decide) (by with_unfolding_all decide) rfl
    (by with_unfolding_all rfl)

/-- C8: every successful `load_data` run returns the five-tuple whose last
component is the ordered list of non-target column names taken before the
categorical expansion; with duplicate-free normalized names its length is
the pre-encoding column count minus one. -/
theorem load_data_feature_names {σ : Type}
    (split : Mat → List ℚ → ℚ → ℕ → Except Err (Mat × Mat × List ℚ × List ℚ))
    (smote : Mat → List ℚ → Except Err (Mat × List ℚ))
    (getDummies : Table → List String → Table)
    (fit : Mat → σ) (transform : σ → Mat → Mat)
    (categoricalColumns : List String) (t : Table) (targetColumn : String)
    (testSize : ℚ) (randomState : ℕ)
    (r : Mat × Mat × List ℚ × List ℚ × List String)
    (h : load_data split smote getDummies fit transform categoricalColumns t
      targetColumn testSize randomState = Except.ok r)
    (hnd : (normalizeColumns t).cols.Nodup) :
    r.2.2.2.2 = (normalizeColumns t).cols.filter
      (fun c => c ≠ lowerStr targetColumn) ∧
    r.2.2.2.2.length = (normalizeColumns t).cols.length - 1 := by
  obtain ⟨hmem, hfns⟩ := load_data_ok_featureNames split smote getDummies
    fit transform categoricalColumns t targetColumn testSize randomState r h
  refine ⟨hfns, ?_⟩
  rw [hfns]
  exact length_filter_ne _ _ hnd hmem

/-- C8 witness: the concrete run returns feature names ["income"], of
length one = two pre-encoding columns minus the target. -/
theorem load_data_feature_names_witness :
    (([[100], [50]], [[100], [50]], [0, 1], [0, 1],
        ["income"]) : Mat × Mat × List ℚ × List ℚ × List String).2.2.2.2 =
      (normalizeColumns tableEx).cols.filter
        (fun c => c ≠ lowerStr "Default") ∧
    (([[100], [50]], [[100], [50]], [0, 1], [0, 1],
        ["income"]) : Mat × Mat × List ℚ × List ℚ × List String).2.2.2.2.length =
      (normalizeColumns tableEx).cols.length - 1 :=
  load_data_feature_names splitHalf smoteId gdId fitNone transId []
    tableEx "Default" (1/5) 42 _ (by with_unfolding_all rfl) (by decide)

/-- C6 amended: `load_data` performs no `test_size` validation of its own:
whatever the test size, if neither library call reports
`InvalidSplitSize`, the pipeline never produces it (the value is merely
forwarded to the library split). -/
theorem load_data_never_invalid_split {σ : Type}
    (split : Mat → List ℚ → ℚ → ℕ → Except Err (Mat × Mat × List ℚ × List ℚ))
    (smote : Mat → List ℚ → Except Err (Mat × List ℚ))
    (getDummies : Table → List String → Table)
    (fit : Mat → σ) (transform : σ → Mat → Mat)
    (categoricalColumns : List String) (t : Table) (targetColumn : String)
    (testSize : ℚ) (randomState : ℕ)
    (hs : ∀ X y ts rs, split X y ts rs ≠ Except.error Err.invalidSplitSize)
    (hm : ∀ X y, smote X y ≠ Except.error Err.invalidSplitSize) :
    load_data split smote getDummies fit transform categoricalColumns t
      targetColumn testSize randomState ≠
      Except.error Err.invalidSplitSize := by
  intro h
  unfold load_data at h
  by_cases hmem : lowerStr targetColumn ∈ (normalizeColumns t).cols
  · rw [if_pos hmem] at h
    rcases hp : preprocessData getDummies categoricalColumns
      (normalizeColumns t) (lowerStr targetColumn) with ⟨X, y, fns⟩
    simp only [hp] at h
    cases hsp : split X y testSize randomState with
    | error e =>
      simp only [hsp, bind, Except.bind, Except.error.injEq] at h
      exact hs X y testSize randomState (by rw [hsp, h])
    | ok q =>
      obtain ⟨XTrain, XTest, yTrain, yTest⟩ := q
      simp only [hsp, bind, Except.bind] at h
      cases hb : handleClassImbalance smote XTrain yTrain with
      | error e =>
        simp only [hb, Except.error.injEq] at h
        exact hm XTrain yTrain
          (by rw [handleClassImbalance_error_from_smote smote XTrain yTrain
            e hb, h])
      | ok p =>
        obtain ⟨XRes, yRes⟩ := p
        simp only [hb, pure, Except.pure] at h
        exact absurd h (by simp)
  · rw [if_neg hmem] at h
    simp only [Except.error.injEq] at h
    exact absurd h (by simp)

/-- C6 amended witness: with a never-failing split stand-in, even the test
size 3/2 does not yield `InvalidSplitSize`. -/
theorem load_data_never_invalid_split_witness :
    load_data splitHalf smoteId gdId fitNone transId [] tableEx "Default"
      (3/2) 42 ≠ Except.error Err.invalidSplitSize :=
  load_data_never_invalid_split splitHalf smoteId gdId fitNone transId []
    tableEx "Default" (3/2) 42
    (fun _ _ _ _ h => Except.noConfusion h)
    (fun _ _ h => Except.noConfusion h)

/-- C6 counterexample: the claim says any `test_size` outside (0,1) fails
with `InvalidSplitSize` before partitioning.  With test size 3/2 — not in
(0,1) — and a succeeding library split, `load_data` succeeds: the
repository validates nothing before partitioning. -/
theorem load_data_no_split_size_check :
    ¬ ((0 : ℚ) < 3/2 ∧ (3/2 : ℚ) < 1) ∧
    load_data splitHalf smoteId gdId fitNone transId [] tableEx "Default"
      (3/2) 42 =
      Except.ok ([[100], [50]], [[100], [50]], [0, 1], [0, 1], ["income"]) := by
  constructor
  · intro hc
    have := hc.2
    norm_num at this
  · with_unfolding_all rfl

/-- A runtime value bound by `main`'s tuple assignment: a feature matrix,
a target vector, or the feature-name list. -/
inductive Val
  | mat (m : Mat)
  | vec (v : List ℚ)
  | strs (s : List String)
deriving DecidableEq

/-- The Python tuple `load_data` returns, as the list of its five values. -/
def tupleToList (r : Mat × Mat × List ℚ × List ℚ × List String) : List Val :=
  [Val.mat r.1, Val.mat r.2.1, Val.vec r.2.2.1, Val.vec r.2.2.2.1,
    Val.strs r.2.2.2.2]

/-- Python tuple unpacking into exactly four names
(`X_train, X_test, y_train, y_test = ...`, main.py lines 39-44): succeeds
only when the value has exactly four components, otherwise raises
`ValueError`. -/
def unpack4 (vs : List Val) : Option (Val × Val × Val × Val) :=
  match vs with
  | [a, b, c, d] => some (a, b, c, d)
  | _ => none

/-- The pipeline stages of `main` (main.py lines 37-62). -/
inductive Stage
  | loadStage
  | trainStage
  | evaluateStage
  | explainStage
deriving DecidableEq

/-- `main` (main.py lines 25-81): run `load_data` inside the try block,
bind its result to four names, then train, evaluate and explain; any
exception is caught by the top-level handler, which prints the message.
Returns the stages that ran and the caught error, if any. -/
def mainRun {σ : Type}
    (split : Mat → List ℚ → ℚ → ℕ → Except Err (Mat × Mat × List ℚ × List ℚ))
    (smote : Mat → List ℚ → Except Err (Mat × List ℚ))
    (getDummies : Table → List String → Table)
    (fit : Mat → σ) (transform : σ → Mat → Mat)
    (categoricalColumns : List String) (t : Table) (targetColumn : String)
    (testSize : ℚ) (randomState : ℕ) : List Stage × Option Err :=
  match load_data split smote getDummies fit transform categoricalColumns t
      targetColumn testSize randomState with
  | Except.error e => ([Stage.loadStage], some e)
  | Except.ok r =>
    match unpack4 (tupleToList r) with
    | none => ([Stage.loadStage],
        some (Err.valueError "too many values to unpack"))
    | some _ => ([Stage.loadStage, Stage.trainStage, Stage.evaluateStage,
        Stage.explainStage], none)

/-- C1: whenever `load_data` succeeds, `main` fails unpacking the
five-tuple into four names: the handler receives the `ValueError` and the
training, evaluation and explanation stages never run. -/
theorem main_unpack_error {σ : Type}
    (split : Mat → List ℚ → ℚ → ℕ → Except Err (Mat × Mat × List ℚ × List ℚ))
    (smote : Mat → List ℚ → Except Err (Mat × List ℚ))
    (getDummies : Table → List String → Table)
    (fit : Mat → σ) (transform : σ → Mat → Mat)
    (categoricalColumns : List String) (t : Table) (targetColumn : String)
    (testSize : ℚ) (randomState : ℕ)
    (r : Mat × Mat × List ℚ × List ℚ × List String)
    (h : load_data split smote getDummies fit transform categoricalColumns t
      targetColumn testSize randomState = Except.ok r) :
    mainRun split smote getDummies fit transform categoricalColumns t
      targetColumn testSize randomState =
      ([Stage.loadStage], some (Err.valueError "too many values to unpack")) ∧
    Stage.trainStage ∉ (mainRun split smote getDummies fit transform
      categoricalColumns t targetColumn testSize randomState).1 := by
  have hm : mainRun split smote getDummies fit transform categoricalColumns
      t targetColumn testSize randomState =
      ([Stage.loadStage],
        some (Err.valueError "too many values to unpack")) := by
    unfold mainRun
    rw [h]
    rfl
  refine ⟨hm, ?_⟩
  rw [hm]
  decide

/-- C1 witness: on the concrete table where `load_data` succeeds, `main`
stops at the unpacking `ValueError` and never trains. -/
theorem main_unpack_error_witness :
    mainRun splitHalf smoteId gdId fitNone transId [] tableEx "Default"
      (1/5) 42 =
      ([Stage.loadStage], some (Err.valueError "too many values to unpack")) ∧
    Stage.trainStage ∉ (mainRun splitHalf smoteId gdId fitNone transId []
      tableEx "Default" (1/5) 42).1 :=
  main_unpack_error splitHalf smoteId gdId fitNone transId [] tableEx
    "Default" (1/5) 42
    ([[100], [50]], [[100], [50]], [0, 1], [0, 1], ["income"])
    (by with_unfolding_all rfl)

/-- Insertion of an index into a key-descending index list: the new index
goes after all entries with a key at least as large (stable order, indices
processed in increasing order). -/
def insertDescBy (key : ℕ → ℚ) : List ℕ → ℕ → List ℕ
  | [], i => [i]
  | j :: rest, i =>
    if key j < key i then i :: j :: rest else j :: insertDescBy key rest i

/-- `np.argsort(-values)`: the indices of `values` ordered by decreasing
value.  Numpy's default sort leaves tie order unspecified; this model uses
the stable order (ties keep index order). -/
def argsortDesc (values : List ℚ) : List ℕ :=
  (List.range values.length).foldl (insertDescBy (fun i => values.getD i 0)) []

/-- The label Python builds for one bar,
`f"{self.feature_names[i]} = {X_test_df.iloc[0, i]:.2f}"`, modelled as the
(name, value) pair; out-of-range indexing raises, modelled as `none`. -/
def labelAt (featureNames : List String) (firstRow : List ℚ) (i : ℕ) :
    Option (String × ℚ) :=
  match featureNames[i]?, firstRow[i]? with
  | some n, some v => some (n, v)
  | _, _ => none

/-- The labels of the plotted bars, one per selected index; any index
error aborts the whole comprehension. -/
def labelsFor (featureNames : List String) (firstRow : List ℚ) :
    List ℕ → Option (List (String × ℚ))
  | [] => some []
  | i :: rest =>
    match labelAt featureNames firstRow i,
        labelsFor featureNames firstRow rest with
    | some l, some ls => some (l :: ls)
    | _, _ => none

/-- The outcome of one chart-producing call: a rendered plot carrying its
bar labels, or the caught-and-printed warning its `except` produces.  The
`columnMismatchError` constructor is the outcome the spec demands; the
code never produces it. -/
inductive PlotOutcome
  | plotted (labels : List (String × ℚ))
  | warned (msg : String)
  | columnMismatchError
deriving DecidableEq

/-- `SHAPExplainer._create_first_prediction_plot` (explainer.py lines
109-150): sort indices by decreasing absolute SHAP value, keep the top
`min(10, len(feature_names))`, and label each kept bar with the feature
name and first-row value at that index.  An `IndexError` is caught by the
surrounding `except` and printed as a warning.  No length comparison
between the SHAP vector and `feature_names` is ever made. -/
def createFirstPredictionPlot (featureNames : List String)
    (shapValues : List ℚ) (firstRow : List ℚ) : PlotOutcome :=
  let absShap := shapValues.map (fun v => |v|)
  let idx := argsortDesc absShap
  let topN := min 10 featureNames.length
  let idxTop := idx.take topN
  match labelsFor featureNames firstRow idxTop with
  | some labels => PlotOutcome.plotted labels
  | none => PlotOutcome.warned "Could not create first prediction plot"

/-- Every index produced by a descending-insert is the inserted one or was
already present. -/
theorem mem_insertDescBy (key : ℕ → ℚ) (l : List ℕ) (i j : ℕ)
    (h : j ∈ insertDescBy key l i) : j = i ∨ j ∈ l := by
  induction l with
  | nil =>
    simp only [insertDescBy] at h
    simp at h
    exact Or.inl h
  | cons a l ih =>
    simp only [insertDescBy] at h
    split at h
    · rcases List.mem_cons.mp h with h1 | h1
      · exact Or.inl h1
      · exact Or.inr h1
    · rcases List.mem_cons.mp h with h1 | h1
      · exact Or.inr (List.mem_cons.mpr (Or.inl h1))
      · rcases ih h1 with h2 | h2
        · exact Or.inl h2
        · exact Or.inr (List.mem_cons.mpr (Or.inr h2))

/-- Members of the fold that builds `argsortDesc` come from the processed
list or the accumulator. -/
theorem mem_foldl_insertDescBy (key : ℕ → ℚ) (l : List ℕ) (acc : List ℕ)
    (j : ℕ) (h : j ∈ l.foldl (insertDescBy key) acc) : j ∈ l ∨ j ∈ acc := by
  induction l generalizing acc with
  | nil =>
    exact Or.inr h
  | cons a l ih =>
    simp only [List.foldl_cons] at h
    rcases ih (insertDescBy key acc a) h with h1 | h1
    · exact Or.inl (List.mem_cons.mpr (Or.inr h1))
    · rcases mem_insertDescBy key acc a j h1 with h2 | h2
      · exact Or.inl (List.mem_cons.mpr (Or.inl h2))
      · exact Or.inr h2

/-- Indices produced by `argsortDesc` are positions of the input list. -/
theorem mem_argsortDesc (values : List ℚ) (j : ℕ)
    (h : j ∈ argsortDesc values) : j < values.length := by
  unfold argsortDesc at h
  rcases mem_foldl_insertDescBy _ _ _ _ h with h1 | h1
  · exact List.mem_range.mp h1
  · cases h1

/-- Label building succeeds on any index list that stays inside both the
feature-name list and the first row. -/
theorem labelsFor_some (featureNames : List String) (firstRow : List ℚ)
    (l : List ℕ)
    (h : ∀ i ∈ l, i < featureNames.length ∧ i < firstRow.length) :
    ∃ ls, labelsFor featureNames firstRow l = some ls := by
  induction l with
  | nil => exact ⟨[], rfl⟩
  | cons i rest ih =>
    obtain ⟨hn, hv⟩ := h i (List.mem_cons.mpr (Or.inl rfl))
    obtain ⟨ls, hls⟩ := ih fun k hk => h k (List.mem_cons.mpr (Or.inr hk))
    refine ⟨(featureNames[i], firstRow[i]) :: ls, ?_⟩
    simp only [labelsFor, labelAt, List.getElem?_eq_getElem hn,
      List.getElem?_eq_getElem hv, hls]

/-- C9 amended: the explainer never raises a `ColumnMismatch`.  Whenever
the SHAP vector is no longer than the feature-name list and the displayed
row, the first-prediction plot is rendered: a shorter SHAP vector is
silently plotted with only the attributions present (truncation), and no
length check is made. -/
theorem explainer_no_mismatch_error (featureNames : List String)
    (shapValues firstRow : List ℚ)
    (h1 : shapValues.length ≤ featureNames.length)
    (h2 : shapValues.length ≤ firstRow.length) :
    ∃ labels, createFirstPredictionPlot featureNames shapValues firstRow =
      PlotOutcome.plotted labels := by
  unfold createFirstPredictionPlot
  have hidx : ∀ i ∈ (argsortDesc (shapValues.map (fun v => |v|))).take
      (min 10 featureNames.length),
      i < featureNames.length ∧ i < firstRow.length := by
    intro i hi
    have hmem := List.mem_of_mem_take hi
    have hlt := mem_argsortDesc _ _ hmem
    rw [List.length_map] at hlt
    exact ⟨lt_of_lt_of_le hlt h1, lt_of_lt_of_le hlt h2⟩
  obtain ⟨ls, hls⟩ := labelsFor_some featureNames firstRow _ hidx
  refine ⟨ls, ?_⟩
  simp only [hls]

/-- C9 amended witness: one attribution against two feature names renders
a one-bar plot. -/
theorem explainer_no_mismatch_error_witness :
    ∃ labels, createFirstPredictionPlot ["f1", "f2"] [3/2] [7] =
      PlotOutcome.plotted labels :=
  explainer_no_mismatch_error ["f1", "f2"] [3/2] [7] (by decide) (by decide)

/-- C9 counterexample: two attributions against three feature names — a
length mismatch — yet the plot is rendered with the two present
attributions silently truncating the name list; no `ColumnMismatch` is
raised. -/
theorem explainer_truncates_on_mismatch :
    ([(5 : ℚ), 1] : List ℚ).length ≠ (["a", "b", "c"] : List String).length ∧
    createFirstPredictionPlot ["a", "b", "c"] [5, 1] [10, 20, 30] =
      PlotOutcome.plotted [("a", 10), ("b", 20)] ∧
    createFirstPredictionPlot ["a", "b", "c"] [5, 1] [10, 20, 30] ≠
      PlotOutcome.columnMismatchError := by
  refine ⟨by decide, ?_, ?_⟩
  · with_unfolding_all decide
  · with_unfolding_all decide
